import Mathlib

/-!
Verification of the Carnil provider adapters (Stripe, Razorpay).

This file shallowly embeds the two provider adapters of the repository
(`src/packages/stripe/src/provider.ts`, `src/packages/razorpay/src/provider.ts`)
and proves or refutes the frozen claims about them.

Modelling conventions:
- JavaScript numbers are modelled as exact rationals (`ℚ`); `Math.round` is
  Mathlib's `round`, which agrees with JS `Math.round` on rationals
  (round half toward positive infinity).
- Dynamically typed JavaScript values flowing through the adapters (webhook
  payloads, optional vendor fields) are modelled by `JsValue`; `undefined`
  is `JsValue.undefined`, and the JS truthiness and `||` operators are modelled
  by `JsValue.truthy` and `jsOr`.
- An `async` adapter method that can reject is modelled as a function into
  `Except CarnilError α`; "never throws" is `Except.ok` on every input.
- Calls into the vendor SDKs (`stripe`, `razorpay` npm packages) and into
  Node builtins (`JSON.parse`, `crypto` HMAC) are external to this
  repository and are modelled as explicit function parameters (oracles);
  the adapter logic around them is translated from the source.
- `@carnil/core` is a dependency whose sources are not in this repository;
  the pieces of it the claims need (`createProviderError`, the closed
  normalized status enum) are modelled from the spec and marked as such.
-/

namespace Carnil

/-- Dynamically typed JavaScript value, as flows through the adapters.
Numeric values are exact rationals; `NaN` appears only through `JsValue.toNum`
returning `none`. -/
inductive JsValue where
  | undefined : JsValue
  | null : JsValue
  | bool : Bool → JsValue
  | num : ℚ → JsValue
  | str : String → JsValue
  | arr : List JsValue → JsValue
  | obj : List (String × JsValue) → JsValue

/-- JavaScript truthiness. `undefined`, `null`, `false`, `0` and the empty
string are falsy; arrays and objects are always truthy. -/
def JsValue.truthy : JsValue → Bool
  | .undefined => false
  | .null => false
  | .bool b => b
  | .num q => q != 0
  | .str s => s != ""
  | .arr _ => true
  | .obj _ => true

/-- JavaScript `a || b`: the first operand when truthy, otherwise the second. -/
def jsOr (a b : JsValue) : JsValue := if a.truthy then a else b

/-- JavaScript strict equality `v === "lit"` against a string literal. -/
def JsValue.strictEqStr : JsValue → String → Bool
  | .str s, t => s == t
  | _, _ => false

/-- JavaScript numeric coercion as used in `x * 1000`; `none` models `NaN`.
Numeric-string coercion is not modelled (no claim touches it): a string
coerces to `NaN` here. -/
def JsValue.toNum : JsValue → Option ℚ
  | .undefined => none
  | .null => some 0
  | .bool b => some (if b then 1 else 0)
  | .num q => some q
  | .str _ => none
  | .arr _ => none
  | .obj _ => none

/-- JavaScript `String.prototype.startsWith`, defined structurally so that it
evaluates inside the kernel (Lean core's `String.startsWith` is extensionally
the same but does not reduce definitionally). -/
def jsStartsWith (s pre : String) : Bool := pre.data.isPrefixOf s.data

/-- The typed error of `@carnil/core` as the adapters construct it:
`new CarnilError(message, code[, type, statusCode])`, plus the provider tag
attached when an error is re-wrapped at the adapter boundary. -/
structure CarnilError where
  message : String
  code : String
  errType : Option String
  statusCode : Option Nat
  provider : Option String

/-- An exception as it exists inside a `catch` block: either an already
typed `CarnilError`, a vendor SDK error carrying an HTTP `statusCode`, or a
plain JavaScript error (`TypeError`, `SyntaxError` from `JSON.parse`, ...). -/
inductive JsError where
  | carnil : CarnilError → JsError
  | vendor : Option Nat → String → JsError
  | js : String → JsError

/-- The `statusCode` property read by `(error as any).statusCode`:
`undefined` (`none`) unless the error carries one. -/
def JsError.statusCode : JsError → Option Nat
  | .carnil e => e.statusCode
  | .vendor sc _ => sc
  | .js _ => none

/-- The `message` property of an error. -/
def JsError.message : JsError → String
  | .carnil e => e.message
  | .vendor _ m => m
  | .js m => m

/-- Modelled from the spec: `createProviderError` lives in `@carnil/core`,
whose sources are not part of this repository. Per the spec's propagation
policy, every vendor-level exception caught at the adapter boundary is
re-wrapped into one of the typed error kinds carrying the originating vendor
name, with the original message preserved for diagnostics; an error that is
already a typed `CarnilError` keeps its kind (so NOT_SUPPORTED and
NOT_IMPLEMENTED stay distinguishable), and any other failure becomes
VENDOR_ERROR. -/
def createProviderError (provider : String) (error : JsError)
    (context : Option String) : CarnilError :=
  match error with
  | .carnil e => { e with provider := some provider }
  | e =>
    { message :=
        match context with
        | some c => c ++ ": " ++ e.message
        | none => e.message
      code := "VENDOR_ERROR"
      errType := none
      statusCode := e.statusCode
      provider := some provider }

/-- JavaScript property access `v[k]`, which throws a `TypeError` on
`null`/`undefined`, yields the field on objects (or `undefined` when the
field is absent) and `undefined` on other primitives for the keys the
adapters read. -/
def JsValue.getProp : JsValue → String → Except JsError JsValue
  | .undefined, k => .error (.js ("Cannot read properties of undefined (reading " ++ k ++ ")"))
  | .null, k => .error (.js ("Cannot read properties of null (reading " ++ k ++ ")"))
  | .obj fields, k => .ok ((fields.lookup k).getD .undefined)
  | _, _ => .ok .undefined

/-- JavaScript optional chaining `v?.k`: `undefined` on `null`/`undefined`,
otherwise the property (which never throws for the keys read here). -/
def jsOptChainGet (v : JsValue) (k : String) : JsValue :=
  match v with
  | .undefined => .undefined
  | .null => .undefined
  | .obj fields => (fields.lookup k).getD .undefined
  | _ => .undefined

/-- A JavaScript `Date`; `none` is an Invalid Date (e.g. `new Date(NaN)`). -/
structure JsDate where
  ms : Option ℚ

/-- JavaScript `new Date(x)` for a numeric (possibly `NaN`) argument. -/
def newJsDate (x : Option ℚ) : JsDate := ⟨x⟩

/-- A `Date` is valid when its time value is not `NaN`. -/
def JsDate.valid (d : JsDate) : Bool := d.ms.isSome

/-- JavaScript `x || d` for a possibly-absent numeric option field
(`request?.limit || 10`): the default both when absent and when `0`. -/
def jsOrNum (x : Option Nat) (d : Nat) : Nat :=
  match x with
  | some n => if n == 0 then d else n
  | none => d

/-- Truthiness filter for an optional string, modelling
`if (request?.field) params.key = request.field`: the empty string is falsy. -/
def truthyStr (x : Option String) : Option String :=
  match x with
  | some s => if s == "" then none else some s
  | none => none

/-- Adapter construction configuration (`ProviderConfig` of `@carnil/core`);
only the `apiKey` is consulted by the embedded operations. -/
structure ProviderConfig where
  apiKey : String

-- ==========================================================================
-- Normalized data model (`@carnil/core` entity shapes as the adapters
-- actually populate them; TypeScript types are erased at runtime, so fields
-- that can receive `undefined` are `JsValue`).
-- ==========================================================================

/-- Normalized `WebhookEvent`. -/
structure WebhookEvent where
  id : JsValue
  type : JsValue
  data : JsValue
  created : JsDate
  provider : String
  livemode : Bool

/-- Normalized `Customer`. -/
structure Customer where
  id : String
  email : JsValue
  name : JsValue
  phone : JsValue
  description : JsValue
  metadata : JsValue
  created : JsDate
  updated : JsDate
  deleted : Bool
  provider : String
  providerId : String

/-- Normalized `PaymentIntent`. -/
structure PaymentIntent where
  id : String
  customerId : JsValue
  amount : ℚ
  currency : String
  status : String
  clientSecret : JsValue
  description : JsValue
  metadata : JsValue
  paymentMethodId : JsValue
  receiptEmail : JsValue
  created : JsDate
  updated : JsDate
  provider : String
  providerId : String

/-- Normalized `PaymentMethod`. -/
structure PaymentMethod where
  id : String
  customerId : JsValue
  type : String
  brand : JsValue
  last4 : JsValue
  expiryMonth : JsValue
  expiryYear : JsValue
  isDefault : Bool
  metadata : JsValue
  created : JsDate
  updated : JsDate
  provider : String
  providerId : String

/-- Modelled from the spec: the closed normalized status enum of the shared
data model (`PaymentIntent['status']` is declared in `@carnil/core`, whose
sources are not part of this repository): requires_payment_method,
processing, succeeded, failed, canceled. -/
def normalizedStatuses : List String :=
  ["requires_payment_method", "processing", "succeeded", "failed", "canceled"]

/-- Normalized page (`ListResponse` of `@carnil/core`) as `StripeProvider`
builds it. -/
structure ListResponse (α : Type) where
  data : List α
  hasMore : Bool
  totalCount : Nat
  nextCursor : Option String
  prevCursor : Option String

/-- Runtime shape of a list operation's result: either a normalized page
object or a bare array of items. The TypeScript return types differ between
the two adapters; this sum records which shape the returned value has. -/
inductive ListResult (α : Type) where
  | page : ListResponse α → ListResult α
  | bare : List α → ListResult α

/-- Whether a list result is a normalized page. -/
def ListResult.isPage {α : Type} : ListResult α → Bool
  | .page _ => true
  | .bare _ => false

/-- Date-range filter of the list requests (`gte`/`lte` as `Date`s, modelled
by their millisecond time values; `none` when absent). -/
structure DateRange where
  gte : Option ℚ
  lte : Option ℚ

/-- `CustomerListRequest` of `@carnil/core` (the fields the adapters read). -/
structure CustomerListRequest where
  limit : Option Nat
  startingAfter : Option String
  endingBefore : Option String
  email : Option String
  created : Option DateRange

/-- `PaymentIntentListRequest` of `@carnil/core` (the fields the adapters
read). -/
structure PaymentIntentListRequest where
  limit : Option Nat
  startingAfter : Option String
  endingBefore : Option String
  customerId : Option String
  status : Option String
  created : Option DateRange

/-- `CreatePaymentIntentRequest` of `@carnil/core` (the fields the adapters
read). -/
structure CreatePaymentIntentRequest where
  amount : ℚ
  currency : String
  customerId : Option String
  description : JsValue
  metadata : JsValue
  paymentMethodId : JsValue
  receiptEmail : JsValue
  captureMethod : JsValue

/-- `ListPaymentMethodsParams` of `@carnil/core` (ignored by the Razorpay
adapter). -/
structure ListPaymentMethodsParams where
  customerId : Option String

-- ==========================================================================
-- Vendor record shapes (what the SDK calls resolve with).
-- ==========================================================================

/-- A Stripe customer record as read by `mapStripeCustomer`. -/
structure StripeCustomerRecord where
  id : String
  email : JsValue
  name : JsValue
  phone : JsValue
  description : JsValue
  metadata : JsValue
  created : ℚ
  deleted : JsValue

/-- A Stripe card sub-record as read by `mapStripePaymentMethod`. -/
structure StripeCardRecord where
  brand : String
  last4 : String
  exp_month : ℚ
  exp_year : ℚ

/-- A Stripe payment method record as read by `mapStripePaymentMethod`. -/
structure StripePaymentMethodRecord where
  id : String
  customer : JsValue
  card : Option StripeCardRecord
  metadata : JsValue
  created : ℚ

/-- A Stripe payment intent record as read by `mapStripePaymentIntent`.
`amount` is in minor units (cents); `status` is Stripe's native status
string. -/
structure StripePaymentIntentRecord where
  id : String
  customer : JsValue
  amount : ℚ
  currency : String
  status : String
  client_secret : JsValue
  description : JsValue
  metadata : JsValue
  payment_method : JsValue
  receipt_email : JsValue
  created : ℚ

/-- A Razorpay customer record as read by `mapRazorpayCustomer`. -/
structure RazorpayCustomerRecord where
  id : String
  email : JsValue
  name : JsValue
  contact : JsValue
  notes : JsValue
  created_at : ℚ

/-- A Razorpay order record as read by `mapRazorpayOrder`. `amount` is in
minor units (paise); `status` is Razorpay's native order status string. -/
structure RazorpayOrderRecord where
  id : String
  amount : ℚ
  currency : String
  status : String
  receipt : JsValue
  notes : JsValue
  created_at : ℚ

/-- The parameters `StripeProvider.createPaymentIntent` sends to
`stripe.paymentIntents.create`. -/
structure StripeCreateParams where
  amount : ℤ
  currency : String
  customer : Option String
  description : JsValue
  metadata : JsValue
  payment_method : JsValue
  receipt_email : JsValue
  capture_method : JsValue

/-- The parameters `RazorpayProvider.createPaymentIntent` sends to
`razorpay.orders.create`. -/
structure RazorpayOrderCreateParams where
  amount : ℤ
  currency : String
  receipt : String
  notes : JsValue

/-- The `created` filter the Stripe list params carry (seconds). -/
structure CreatedFilter where
  gte : Option ℚ
  lte : Option ℚ

/-- The parameters `StripeProvider.listCustomers` sends to
`stripe.customers.list`. -/
structure StripeCustomerListParams where
  limit : Nat
  starting_after : Option String
  ending_before : Option String
  email : Option String
  created : Option CreatedFilter

/-- The parameters `StripeProvider.listPaymentIntents` sends to
`stripe.paymentIntents.list`. -/
structure StripePaymentIntentListParams where
  limit : Nat
  starting_after : Option String
  ending_before : Option String
  customer : Option String
  status : Option String
  created : Option CreatedFilter

/-- A Stripe SDK list result (`{ data, has_more }`). -/
structure StripeListPage (α : Type) where
  data : List α
  has_more : Bool

/-- The parameters the Razorpay list operations send to
`razorpay.customers.all` / `razorpay.orders.all`. The source's `from` and
`to` keys are `fromCursor` and `toCursor` here (`from` is a Lean keyword). -/
structure RazorpayListParams where
  count : Nat
  fromCursor : Option String
  toCursor : Option String

/-- A Razorpay SDK collection result (`{ items }`). -/
structure RazorpayCollection (α : Type) where
  items : List α

-- ==========================================================================
-- Mapping functions (translated from the source).
-- ==========================================================================

/-- `StripeProvider.mapStripeCustomer`. -/
def mapStripeCustomer (customer : StripeCustomerRecord) : Customer :=
  { id := customer.id
    email := jsOr customer.email .undefined
    name := jsOr customer.name .undefined
    phone := jsOr customer.phone .undefined
    description := jsOr customer.description .undefined
    metadata := customer.metadata
    created := newJsDate (some (customer.created * 1000))
    updated := newJsDate (some (customer.created * 1000))
    deleted := (jsOr customer.deleted (.bool false)).truthy
    provider := "stripe"
    providerId := customer.id }

/-- `StripeProvider.mapStripePaymentMethod`. -/
def mapStripePaymentMethod (paymentMethod : StripePaymentMethodRecord) :
    PaymentMethod :=
  let card := paymentMethod.card
  { id := paymentMethod.id
    customerId := paymentMethod.customer
    type := "card"
    brand :=
      match card with
      | some c => .str c.brand
      | none => .undefined
    last4 :=
      match card with
      | some c => .str c.last4
      | none => .undefined
    expiryMonth :=
      match card with
      | some c => .num c.exp_month
      | none => .undefined
    expiryYear :=
      match card with
      | some c => .num c.exp_year
      | none => .undefined
    isDefault := false
    metadata := paymentMethod.metadata
    created := newJsDate (some (paymentMethod.created * 1000))
    updated := newJsDate (some (paymentMethod.created * 1000))
    provider := "stripe"
    providerId := paymentMethod.id }

/-- `StripeProvider.mapStripePaymentIntent`. Note the source sets
`status: paymentIntent.status as any`: the vendor-native status string is
passed through unchanged, with no mapping into the normalized enum. -/
def mapStripePaymentIntent (paymentIntent : StripePaymentIntentRecord) :
    PaymentIntent :=
  { id := paymentIntent.id
    customerId := paymentIntent.customer
    amount := paymentIntent.amount / 100
    currency := paymentIntent.currency
    status := paymentIntent.status
    clientSecret := jsOr paymentIntent.client_secret .undefined
    description := jsOr paymentIntent.description .undefined
    metadata := paymentIntent.metadata
    paymentMethodId := jsOr paymentIntent.payment_method .undefined
    receiptEmail := jsOr paymentIntent.receipt_email .undefined
    created := newJsDate (some (paymentIntent.created * 1000))
    updated := newJsDate (some (paymentIntent.created * 1000))
    provider := "stripe"
    providerId := paymentIntent.id }

/-- `RazorpayProvider.mapRazorpayCustomer`. -/
def mapRazorpayCustomer (customer : RazorpayCustomerRecord) : Customer :=
  { id := customer.id
    email := jsOr customer.email .undefined
    name := jsOr customer.name .undefined
    phone := jsOr customer.contact .undefined
    description := .undefined
    metadata := jsOr customer.notes (.obj [])
    created := newJsDate (some (customer.created_at * 1000))
    updated := newJsDate (some (customer.created_at * 1000))
    deleted := (jsOptChainGet customer.notes "status").strictEqStr "inactive"
    provider := "razorpay"
    providerId := customer.id }

/-- `RazorpayProvider.mapRazorpayOrderStatus`: the total translation of
Razorpay's native order statuses into the normalized enum, with
requires_payment_method as the default for unrecognized statuses. -/
def mapRazorpayOrderStatus (status : String) : String :=
  match status with
  | "created" => "requires_payment_method"
  | "attempted" => "processing"
  | "paid" => "succeeded"
  | "failed" => "failed"
  | _ => "requires_payment_method"

/-- `RazorpayProvider.mapRazorpayOrder`. -/
def mapRazorpayOrder (order : RazorpayOrderRecord)
    (customerId : Option String) : PaymentIntent :=
  { id := order.id
    customerId := .str (customerId.getD "")
    amount := order.amount / 100
    currency := order.currency
    status := mapRazorpayOrderStatus order.status
    clientSecret := .str order.id
    description := jsOr order.receipt .undefined
    metadata := jsOr order.notes (.obj [])
    paymentMethodId := .undefined
    receiptEmail := .undefined
    created := newJsDate (some (order.created_at * 1000))
    updated := newJsDate (some (order.created_at * 1000))
    provider := "razorpay"
    providerId := order.id }

-- ==========================================================================
-- Adapter operations (translated from the source; vendor SDK calls are
-- explicit oracle parameters).
-- ==========================================================================

/-- A Stripe webhook event as `stripe.webhooks.constructEvent` yields it. -/
structure StripeEvent where
  id : String
  type : String
  data : JsValue
  created : ℚ
  livemode : Bool

/-- `StripeProvider.healthCheck`: probes `stripe.balance.retrieve()`
(`balanceRetrieve` is that call's outcome); `true` on success, `false` on
any failure, never rejecting. -/
def stripeHealthCheck (balanceRetrieve : Except JsError JsValue) :
    Except CarnilError Bool :=
  match balanceRetrieve with
  | .ok _ => .ok true
  | .error _ => .ok false

/-- `RazorpayProvider.healthCheck`: probes `razorpay.payments.fetch('dummy')`
(`paymentsFetchDummy` is that call's outcome), a probe expected to fail;
`true` on success or on a 404 (`(error as any).statusCode === 404`), `false`
otherwise, never rejecting. -/
def razorpayHealthCheck (paymentsFetchDummy : Except JsError JsValue) :
    Except CarnilError Bool :=
  match paymentsFetchDummy with
  | .ok _ => .ok true
  | .error e => .ok (e.statusCode == some 404)

/-- `StripeProvider.verifyWebhook`: delegates to the SDK's
`stripe.webhooks.constructEvent(payload, signature, secret)`
(`constructEvent`, an external oracle); `true` when it succeeds, `false`
when it throws. -/
def stripeVerifyWebhook
    (constructEvent : String → String → String → Except JsError StripeEvent)
    (payload signature secret : String) : Except CarnilError Bool :=
  match constructEvent payload signature secret with
  | .ok _ => .ok true
  | .error _ => .ok false

/-- `RazorpayProvider.verifyWebhook`: recomputes
`crypto.createHmac('sha256', secret).update(payload).digest('hex')`
(`hmacSha256Hex secret payload`, an external oracle that can throw) and
compares it to the given signature; `false` when the HMAC computation
throws. -/
def razorpayVerifyWebhook
    (hmacSha256Hex : String → String → Except JsError String)
    (payload signature secret : String) : Except CarnilError Bool :=
  match hmacSha256Hex secret payload with
  | .ok expectedSignature => .ok (signature == expectedSignature)
  | .error _ => .ok false

/-- `StripeProvider.parseWebhook`: verifies and parses via the SDK's
`constructEvent`; on failure the error is re-wrapped with the context
message "Webhook parsing failed". -/
def stripeParseWebhook
    (constructEvent : String → String → String → Except JsError StripeEvent)
    (payload signature secret : String) : Except CarnilError WebhookEvent :=
  match constructEvent payload signature secret with
  | .ok event =>
    .ok { id := .str event.id
          type := .str event.type
          data := event.data
          created := newJsDate (some (event.created * 1000))
          provider := "stripe"
          livemode := event.livemode }
  | .error e => .error (createProviderError "stripe" e (some "Webhook parsing failed"))

/-- `RazorpayProvider.parseWebhook`: `JSON.parse(payload)` (`jsonParse`, the
Node builtin as an external oracle), then field reads with JS semantics; the
`_signature` and `_secret` parameters are declared but never consulted.
`livemode` is `!this.config.apiKey.startsWith('rzp_test_')`. -/
def razorpayParseWebhook (jsonParse : String → Except JsError JsValue)
    (config : ProviderConfig) (payload : String)
    (_signature _secret : String) : Except CarnilError WebhookEvent :=
  match (do
      let event ← jsonParse payload
      let idField ← event.getProp "id"
      let entityField ← event.getProp "entity"
      let eventField ← event.getProp "event"
      let payloadField ← event.getProp "payload"
      let createdAtField ← event.getProp "created_at"
      pure { id := jsOr idField entityField
             type := eventField
             data := jsOr payloadField event
             created := newJsDate (createdAtField.toNum.map (fun q => q * 1000))
             provider := "razorpay"
             livemode := !(jsStartsWith config.apiKey "rzp_test_") }
    : Except JsError WebhookEvent) with
  | .ok event => .ok event
  | .error e => .error (createProviderError "razorpay" e (some "Webhook parsing failed"))

/-- `RazorpayProvider.deleteCustomer`: the body is empty (comments only), so
the call resolves successfully for every id without any vendor call. -/
def razorpayDeleteCustomer (_id : String) : Except CarnilError Unit :=
  .ok ()

/-- `RazorpayProvider.listPaymentMethods`: unconditionally returns an empty
array. -/
def razorpayListPaymentMethods (_params : Option ListPaymentMethodsParams) :
    Except CarnilError (List PaymentMethod) :=
  .ok []

/-- `RazorpayProvider.capturePaymentIntent`: throws
`new CarnilError('Not supported in Razorpay', 'NOT_SUPPORTED')`, which the
surrounding catch re-wraps through `createProviderError`. -/
def razorpayCapturePaymentIntent (_id : String) (_amount : Option ℚ) :
    Except CarnilError PaymentIntent :=
  .error (createProviderError "razorpay"
    (.carnil { message := "Not supported in Razorpay"
               code := "NOT_SUPPORTED"
               errType := none
               statusCode := none
               provider := none }) none)

/-- `StripeProvider.createPaymentIntent`: sends
`amount: Math.round(request.amount * 100)` to
`stripe.paymentIntents.create` (`paymentIntentsCreate`, an external oracle)
and maps the response through `mapStripePaymentIntent`. -/
def stripeCreatePaymentIntent
    (paymentIntentsCreate : StripeCreateParams → Except JsError StripePaymentIntentRecord)
    (request : CreatePaymentIntentRequest) : Except CarnilError PaymentIntent :=
  match paymentIntentsCreate
      { amount := round (request.amount * 100)
        currency := request.currency
        customer := request.customerId
        description := request.description
        metadata := request.metadata
        payment_method := request.paymentMethodId
        receipt_email := request.receiptEmail
        capture_method := request.captureMethod } with
  | .ok paymentIntent => .ok (mapStripePaymentIntent paymentIntent)
  | .error e => .error (createProviderError "stripe" e none)

/-- `RazorpayProvider.createPaymentIntent`: sends
`amount: Math.round(request.amount * 100)` to `razorpay.orders.create`
(`ordersCreate`, an external oracle; `now` stands for `Date.now()` in the
receipt string) and maps the response through `mapRazorpayOrder`. -/
def razorpayCreatePaymentIntent
    (ordersCreate : RazorpayOrderCreateParams → Except JsError RazorpayOrderRecord)
    (now : ℤ) (request : CreatePaymentIntentRequest) :
    Except CarnilError PaymentIntent :=
  match ordersCreate
      { amount := round (request.amount * 100)
        currency := request.currency
        receipt := "receipt_" ++ toString now
        notes := request.metadata } with
  | .ok order => .ok (mapRazorpayOrder order request.customerId)
  | .error e => .error (createProviderError "razorpay" e none)

/-- `StripeProvider.listCustomers`: builds the normalized pagination params
(`limit: request?.limit || 10`, `starting_after`, `ending_before`, plus the
`email` filter when truthy and the `created` range when present), calls
`stripe.customers.list` (`customersList`, an external oracle) and returns a
normalized page with `hasMore` and cursors taken from the first and last
items. -/
def stripeListCustomers
    (customersList : StripeCustomerListParams → Except JsError (StripeListPage StripeCustomerRecord))
    (request : Option CustomerListRequest) :
    Except CarnilError (ListResult Customer) :=
  match customersList
      { limit := jsOrNum (request.bind (fun r => r.limit)) 10
        starting_after := request.bind (fun r => r.startingAfter)
        ending_before := request.bind (fun r => r.endingBefore)
        email := truthyStr (request.bind (fun r => r.email))
        created := (request.bind (fun r => r.created)).map
          (fun r => { gte := r.gte.map (fun t => t / 1000)
                      lte := r.lte.map (fun t => t / 1000) }) } with
  | .ok customers =>
    .ok (.page
      { data := customers.data.map mapStripeCustomer
        hasMore := customers.has_more
        totalCount := customers.data.length
        nextCursor := customers.data.getLast?.map (fun c => c.id)
        prevCursor := customers.data.head?.map (fun c => c.id) })
  | .error e => .error (createProviderError "stripe" e none)

/-- `StripeProvider.listPaymentIntents`: same normalized pagination contract
and normalized page as `stripeListCustomers`, with the `customer` and
`status` filters of `PaymentIntentListRequest`. -/
def stripeListPaymentIntents
    (paymentIntentsList : StripePaymentIntentListParams → Except JsError (StripeListPage StripePaymentIntentRecord))
    (request : Option PaymentIntentListRequest) :
    Except CarnilError (ListResult PaymentIntent) :=
  match paymentIntentsList
      { limit := jsOrNum (request.bind (fun r => r.limit)) 10
        starting_after := request.bind (fun r => r.startingAfter)
        ending_before := request.bind (fun r => r.endingBefore)
        customer := request.bind (fun r => r.customerId)
        status := truthyStr (request.bind (fun r => r.status))
        created := (request.bind (fun r => r.created)).map
          (fun r => { gte := r.gte.map (fun t => t / 1000)
                      lte := r.lte.map (fun t => t / 1000) }) } with
  | .ok paymentIntents =>
    .ok (.page
      { data := paymentIntents.data.map mapStripePaymentIntent
        hasMore := paymentIntents.has_more
        totalCount := paymentIntents.data.length
        nextCursor := paymentIntents.data.getLast?.map (fun pi => pi.id)
        prevCursor := paymentIntents.data.head?.map (fun pi => pi.id) })
  | .error e => .error (createProviderError "stripe" e none)

/-- The params `RazorpayProvider`'s list operations build:
`count: request?.limit || 10`, `from`/`to` only when the cursor strings are
truthy. -/
def razorpayListParamsOf (limit : Option Nat) (startingAfter endingBefore : Option String) :
    RazorpayListParams :=
  { count := jsOrNum limit 10
    fromCursor := truthyStr startingAfter
    toCursor := truthyStr endingBefore }

/-- `RazorpayProvider.listCustomers`: calls `razorpay.customers.all`
(`customersAll`, an external oracle) and returns the bare mapped array
`customers.items.map(...)`, not a normalized page. -/
def razorpayListCustomers
    (customersAll : RazorpayListParams → Except JsError (RazorpayCollection RazorpayCustomerRecord))
    (request : Option CustomerListRequest) :
    Except CarnilError (ListResult Customer) :=
  match customersAll
      (razorpayListParamsOf (request.bind (fun r => r.limit))
        (request.bind (fun r => r.startingAfter))
        (request.bind (fun r => r.endingBefore))) with
  | .ok customers => .ok (.bare (customers.items.map mapRazorpayCustomer))
  | .error e => .error (createProviderError "razorpay" e none)

/-- `RazorpayProvider.listPaymentIntents`: calls `razorpay.orders.all`
(`ordersAll`, an external oracle) and returns the bare mapped array
`orders.items.map(order => this.mapRazorpayOrder(order))`, not a normalized
page. -/
def razorpayListPaymentIntents
    (ordersAll : RazorpayListParams → Except JsError (RazorpayCollection RazorpayOrderRecord))
    (request : Option PaymentIntentListRequest) :
    Except CarnilError (ListResult PaymentIntent) :=
  match ordersAll
      (razorpayListParamsOf (request.bind (fun r => r.limit))
        (request.bind (fun r => r.startingAfter))
        (request.bind (fun r => r.endingBefore))) with
  | .ok orders => .ok (.bare (orders.items.map (fun order => mapRazorpayOrder order none)))
  | .error e => .error (createProviderError "razorpay" e none)

-- ==========================================================================
-- Sample records (used by witnesses, counterexamples and evaluations).
-- ==========================================================================

/-- A sample Stripe customer record. -/
def sampleStripeCustomer : StripeCustomerRecord :=
  { id := "cus_123"
    email := .str "a@example.com"
    name := .str "Ada"
    phone := .undefined
    description := .undefined
    metadata := .obj []
    created := 1700000000
    deleted := .undefined }

/-- A sample Razorpay customer record. -/
def sampleRazorpayCustomer : RazorpayCustomerRecord :=
  { id := "cust_123"
    email := .str "a@example.com"
    name := .str "Ada"
    contact := .undefined
    notes := .obj []
    created_at := 1700000000 }

/-- A sample Razorpay order record. -/
def sampleRazorpayOrder : RazorpayOrderRecord :=
  { id := "order_123"
    amount := 2000
    currency := "INR"
    status := "created"
    receipt := .undefined
    notes := .obj []
    created_at := 1700000000 }

/-- A sample Stripe payment intent record. -/
def sampleStripePaymentIntent : StripePaymentIntentRecord :=
  { id := "pi_123"
    customer := .str "cus_123"
    amount := 2000
    currency := "usd"
    status := "requires_payment_method"
    client_secret := .str "pi_123_secret"
    description := .undefined
    metadata := .obj []
    payment_method := .undefined
    receipt_email := .undefined
    created := 1700000000 }

/-- A sample Stripe payment method record. -/
def sampleStripePaymentMethod : StripePaymentMethodRecord :=
  { id := "pm_123"
    customer := .str "cus_123"
    card := some { brand := "visa", last4 := "4242", exp_month := 12, exp_year := 2030 }
    metadata := .obj []
    created := 1700000000 }

/-- A sample create-payment-intent request for amount 20.00 usd. -/
def sampleCreateRequest : CreatePaymentIntentRequest :=
  { amount := 20
    currency := "usd"
    customerId := some "cus_123"
    description := .undefined
    metadata := .obj []
    paymentMethodId := .undefined
    receiptEmail := .undefined
    captureMethod := .undefined }

-- ==========================================================================
-- Theorems.
-- ==========================================================================

/-- C1 (code-bug evidence): `RazorpayProvider.deleteCustomer` resolves
successfully for every customer id while performing no vendor call and no
soft-delete — the silent no-op the claim rules out. -/
theorem C1_deleteCustomer_silent_noop :
    ∀ id : String, razorpayDeleteCustomer id = Except.ok () :=
  fun _ => rfl

/-- C2 (code-bug evidence): `RazorpayProvider.mapRazorpayOrderStatus` is
total into the closed normalized enum with a safe default, but
`StripeProvider.mapStripePaymentIntent` passes the vendor status through
unchanged: on the native Stripe status requires_confirmation it produces a
normalized record whose status lies outside the closed enum. -/
theorem C2_status_mapping_totality :
    (∀ s : String, mapRazorpayOrderStatus s ∈ normalizedStatuses) ∧
    (mapStripePaymentIntent
      { sampleStripePaymentIntent with status := "requires_confirmation" }).status =
      "requires_confirmation" ∧
    "requires_confirmation" ∉ normalizedStatuses := by
  refine ⟨?_, rfl, by decide⟩
  intro s
  unfold mapRazorpayOrderStatus
  split <;> decide

/-- C3: both adapters' `verifyWebhook` always resolves with a boolean
(never rejects); Razorpay's is `true` exactly when the HMAC computation
succeeds and the given signature equals the recomputed hex digest, and
Stripe's is `false` exactly when the SDK verifier throws. -/
theorem C3_verifyWebhook_total_boolean :
    ∀ (hmacSha256Hex : String → String → Except JsError String)
      (constructEvent : String → String → String → Except JsError StripeEvent)
      (payload signature secret : String),
      (∃ b, razorpayVerifyWebhook hmacSha256Hex payload signature secret = Except.ok b) ∧
      (razorpayVerifyWebhook hmacSha256Hex payload signature secret = Except.ok true ↔
        ∃ e, hmacSha256Hex secret payload = Except.ok e ∧ signature = e) ∧
      (∃ b, stripeVerifyWebhook constructEvent payload signature secret = Except.ok b) ∧
      (stripeVerifyWebhook constructEvent payload signature secret = Except.ok false ↔
        ∃ err, constructEvent payload signature secret = Except.error err) := by
  intro hmac ce payload signature secret
  refine ⟨?_, ?_, ?_, ?_⟩
  · cases h : hmac secret payload with
    | ok e => exact ⟨signature == e, by simp [razorpayVerifyWebhook, h]⟩
    | error e => exact ⟨false, by simp [razorpayVerifyWebhook, h]⟩
  · cases h : hmac secret payload with
    | ok e => simp [razorpayVerifyWebhook, h]
    | error e => simp [razorpayVerifyWebhook, h]
  · cases h : ce payload signature secret with
    | ok ev => exact ⟨true, by simp [stripeVerifyWebhook, h]⟩
    | error e => exact ⟨false, by simp [stripeVerifyWebhook, h]⟩
  · cases h : ce payload signature secret with
    | ok ev => simp [stripeVerifyWebhook, h]
    | error e => simp [stripeVerifyWebhook, h]

/-- C4 (counterexample): on the well-formed JSON payload `\x7b\x7d` (an empty
object, lacking the required id and type fields), Razorpay's `parseWebhook`
does not fail with a parse error — it resolves successfully with an event
whose `id` and `type` are both `undefined`. -/
theorem C4_parseWebhook_missing_fields_counterexample :
    ∃ event : WebhookEvent,
      razorpayParseWebhook (fun _ => Except.ok (JsValue.obj []))
        { apiKey := "rzp_live_key" } "\x7b\x7d" "sig" "whsec" = Except.ok event ∧
      event.id = JsValue.undefined ∧ event.type = JsValue.undefined := by
  exact ⟨_, rfl, rfl, rfl⟩

/-- C4 (amended): `parseWebhook` fails with a wrapped parse error when the
payload is not well-formed JSON (Razorpay) or when the SDK
verification-and-parse throws (Stripe); on a payload that does carry a
non-empty id, an event type and a numeric created_at, the returned event has
those fields and a valid created date — but Razorpay performs no
required-field validation (see the counterexample). -/
theorem C4_parseWebhook_amended :
    ∀ (jsonParse : String → Except JsError JsValue)
      (constructEvent : String → String → String → Except JsError StripeEvent)
      (config : ProviderConfig) (payload signature secret : String),
      (∀ e, jsonParse payload = Except.error e →
        razorpayParseWebhook jsonParse config payload signature secret =
          Except.error (createProviderError "razorpay" e (some "Webhook parsing failed"))) ∧
      (∀ (fields : List (String × JsValue)) (i ty : String) (ca : ℚ),
        jsonParse payload = Except.ok (JsValue.obj fields) →
        fields.lookup "id" = some (JsValue.str i) → i ≠ "" →
        fields.lookup "event" = some (JsValue.str ty) →
        fields.lookup "created_at" = some (JsValue.num ca) →
        ∃ event, razorpayParseWebhook jsonParse config payload signature secret =
            Except.ok event ∧
          event.id = JsValue.str i ∧ event.type = JsValue.str ty ∧
          event.created.valid = true) ∧
      (∀ e, constructEvent payload signature secret = Except.error e →
        stripeParseWebhook constructEvent payload signature secret =
          Except.error (createProviderError "stripe" e (some "Webhook parsing failed"))) ∧
      (∀ ev : StripeEvent, constructEvent payload signature secret = Except.ok ev →
        stripeParseWebhook constructEvent payload signature secret =
          Except.ok { id := .str ev.id, type := .str ev.type, data := ev.data,
                      created := newJsDate (some (ev.created * 1000)),
                      provider := "stripe", livemode := ev.livemode } ∧
          (newJsDate (some (ev.created * 1000))).valid = true) := by
  intro jsonParse ce config payload signature secret
  refine ⟨?_, ?_, ?_, ?_⟩
  · intro e he
    simp [razorpayParseWebhook, he, Bind.bind, Except.bind]
  · intro fields i ty ca hp hid hne hev hca
    refine ⟨{ id := JsValue.str i
              type := JsValue.str ty
              data := jsOr ((fields.lookup "payload").getD JsValue.undefined) (JsValue.obj fields)
              created := newJsDate (some (ca * 1000))
              provider := "razorpay"
              livemode := !(jsStartsWith config.apiKey "rzp_test_") }, ?_, rfl, rfl, rfl⟩
    simp [razorpayParseWebhook, hp, Bind.bind, Except.bind, JsValue.getProp,
      Pure.pure, Except.pure, hid, hev, hca, jsOr, JsValue.truthy, hne,
      JsValue.toNum]
  · intro e he
    simp [stripeParseWebhook, he]
  · intro ev he
    exact ⟨by simp [stripeParseWebhook, he], by simp [newJsDate, JsDate.valid]⟩

/-- C4 witness: on a payload parsing to an object with id evt_1, event type
payment.captured and numeric created_at, Razorpay's `parseWebhook` returns
an event carrying exactly those fields and a valid created date. -/
theorem C4_parseWebhook_amended_witness :
    ∃ event, razorpayParseWebhook
        (fun _ => Except.ok (JsValue.obj
          [("id", JsValue.str "evt_1"), ("event", JsValue.str "payment.captured"),
           ("created_at", JsValue.num 1700000000)]))
        { apiKey := "rzp_test_key" } "payload" "sig" "whsec" = Except.ok event ∧
      event.id = JsValue.str "evt_1" ∧ event.type = JsValue.str "payment.captured" ∧
      event.created.valid = true := by
  exact (C4_parseWebhook_amended
      (fun _ => Except.ok (JsValue.obj
        [("id", JsValue.str "evt_1"), ("event", JsValue.str "payment.captured"),
         ("created_at", JsValue.num 1700000000)]))
      (fun _ _ _ => Except.error (JsError.js "bad signature"))
      { apiKey := "rzp_test_key" } "payload" "sig" "whsec").2.1
    [("id", JsValue.str "evt_1"), ("event", JsValue.str "payment.captured"),
     ("created_at", JsValue.num 1700000000)]
    "evt_1" "payment.captured" 1700000000 rfl rfl (by decide) rfl rfl

/-- C5: converting a major-unit amount to minor units at payment-intent
creation (`Math.round(amount * 100)`) and back through the response mapping
(`minorAmount / 100`) is exact for every amount representable at two decimal
places, on both adapters (the vendor oracle echoes the minor-unit amount it
received). -/
theorem C5_minor_units_round_trip (a : ℚ) (n : ℤ) (h : a * 100 = (n : ℚ)) :
    (∀ (base : StripePaymentIntentRecord) (req : CreatePaymentIntentRequest),
      req.amount = a →
      Except.map PaymentIntent.amount
        (stripeCreatePaymentIntent
          (fun p => Except.ok { base with amount := (p.amount : ℚ) }) req) =
        Except.ok a) ∧
    (∀ (base : RazorpayOrderRecord) (req : CreatePaymentIntentRequest) (now : ℤ),
      req.amount = a →
      Except.map PaymentIntent.amount
        (razorpayCreatePaymentIntent
          (fun p => Except.ok { base with amount := (p.amount : ℚ) }) now req) =
        Except.ok a) := by
  have h100 : (100 : ℚ) ≠ 0 := by norm_num
  have key : ((round (a * 100) : ℤ) : ℚ) / 100 = a := by
    rw [h, round_intCast, div_eq_iff h100]
    exact h.symm
  constructor
  · intro base req hreq
    simp [stripeCreatePaymentIntent, mapStripePaymentIntent, Except.map, hreq, key]
  · intro base req now hreq
    simp [razorpayCreatePaymentIntent, mapRazorpayOrder, Except.map, hreq, key]

/-- C5 witness: at amount 20.00 the Stripe adapter sends 2000 minor units
and maps the echoed response back to exactly 20.00; likewise Razorpay. -/
theorem C5_minor_units_round_trip_witness :
    Except.map PaymentIntent.amount
      (stripeCreatePaymentIntent
        (fun p => Except.ok { sampleStripePaymentIntent with amount := (p.amount : ℚ) })
        sampleCreateRequest) = Except.ok 20 ∧
    Except.map PaymentIntent.amount
      (razorpayCreatePaymentIntent
        (fun p => Except.ok { sampleRazorpayOrder with amount := (p.amount : ℚ) })
        1700000000 sampleCreateRequest) = Except.ok 20 := by
  have h := C5_minor_units_round_trip 20 2000 (by norm_num)
  exact ⟨h.1 sampleStripePaymentIntent sampleCreateRequest rfl,
    h.2 sampleRazorpayOrder sampleCreateRequest 1700000000 rfl⟩

/-- C6 (code-bug evidence): `RazorpayProvider.capturePaymentIntent`
deterministically fails with the distinguishable NOT_SUPPORTED kind on every
call, while `RazorpayProvider.listPaymentMethods` silently resolves with an
empty list on every call instead of failing — the inconsistent mix the claim
rules out. -/
theorem C6_unsupported_operation_mix :
    (∀ (id : String) (amount : Option ℚ),
      razorpayCapturePaymentIntent id amount =
        Except.error { message := "Not supported in Razorpay", code := "NOT_SUPPORTED",
                       errType := none, statusCode := none, provider := some "razorpay" }) ∧
    (∀ params : Option ListPaymentMethodsParams,
      razorpayListPaymentMethods params = Except.ok []) :=
  ⟨fun _ _ => rfl, fun _ => rfl⟩

/-- C7 (code-bug evidence): the Stripe list operations return a normalized
page (items, hasMore, cursors), while the Razorpay list operations return a
bare array of items. -/
theorem C7_list_result_shapes :
    stripeListCustomers
        (fun _ => Except.ok { data := [sampleStripeCustomer], has_more := false }) none =
      Except.ok (ListResult.page
        { data := [mapStripeCustomer sampleStripeCustomer], hasMore := false,
          totalCount := 1, nextCursor := some "cus_123", prevCursor := some "cus_123" }) ∧
    stripeListPaymentIntents
        (fun _ => Except.ok { data := [sampleStripePaymentIntent], has_more := true }) none =
      Except.ok (ListResult.page
        { data := [mapStripePaymentIntent sampleStripePaymentIntent], hasMore := true,
          totalCount := 1, nextCursor := some "pi_123", prevCursor := some "pi_123" }) ∧
    razorpayListCustomers
        (fun _ => Except.ok { items := [sampleRazorpayCustomer] }) none =
      Except.ok (ListResult.bare [mapRazorpayCustomer sampleRazorpayCustomer]) ∧
    razorpayListPaymentIntents
        (fun _ => Except.ok { items := [sampleRazorpayOrder] }) none =
      Except.ok (ListResult.bare [mapRazorpayOrder sampleRazorpayOrder none]) :=
  ⟨rfl, rfl, rfl, rfl⟩

/-- C8: every mapping function stamps `provider` with the adapter's name and
`providerId` with the vendor record's own id; the provider tag is non-empty,
and `providerId` is non-empty whenever the vendor id is. -/
theorem C8_provider_join_key :
    ∀ (c : StripeCustomerRecord) (rc : RazorpayCustomerRecord)
      (o : RazorpayOrderRecord) (p : StripePaymentIntentRecord)
      (pm : StripePaymentMethodRecord) (cid : Option String),
      ((mapStripeCustomer c).provider = "stripe" ∧
        (mapStripeCustomer c).providerId = c.id ∧
        (c.id ≠ "" → (mapStripeCustomer c).providerId ≠ "")) ∧
      ((mapRazorpayCustomer rc).provider = "razorpay" ∧
        (mapRazorpayCustomer rc).providerId = rc.id ∧
        (rc.id ≠ "" → (mapRazorpayCustomer rc).providerId ≠ "")) ∧
      ((mapRazorpayOrder o cid).provider = "razorpay" ∧
        (mapRazorpayOrder o cid).providerId = o.id ∧
        (o.id ≠ "" → (mapRazorpayOrder o cid).providerId ≠ "")) ∧
      ((mapStripePaymentIntent p).provider = "stripe" ∧
        (mapStripePaymentIntent p).providerId = p.id) ∧
      ((mapStripePaymentMethod pm).provider = "stripe" ∧
        (mapStripePaymentMethod pm).providerId = pm.id) := by
  intro c rc o p pm cid
  exact ⟨⟨rfl, rfl, fun h => h⟩, ⟨rfl, rfl, fun h => h⟩,
    ⟨rfl, rfl, fun h => h⟩, ⟨rfl, rfl⟩, ⟨rfl, rfl⟩⟩

/-- C8 witness: the join-key invariant evaluated at concrete vendor
records with non-empty ids. -/
theorem C8_provider_join_key_witness :
    (mapStripeCustomer sampleStripeCustomer).provider = "stripe" ∧
    (mapStripeCustomer sampleStripeCustomer).providerId ≠ "" ∧
    (mapRazorpayCustomer sampleRazorpayCustomer).providerId ≠ "" ∧
    (mapRazorpayOrder sampleRazorpayOrder none).providerId = "order_123" := by
  have h := C8_provider_join_key sampleStripeCustomer sampleRazorpayCustomer
    sampleRazorpayOrder sampleStripePaymentIntent sampleStripePaymentMethod none
  exact ⟨h.1.1, h.1.2.2 (by decide), h.2.1.2.2 (by decide),
    h.2.2.1.2.1.trans rfl⟩

/-- C9: both adapters' `healthCheck` always resolves with a boolean (never
rejects); Stripe's is `true` exactly when the probe call succeeds, and
Razorpay's is `true` exactly when the probe succeeds or fails with the
expected benign 404 on the probe resource. -/
theorem C9_healthCheck_total_boolean :
    ∀ (balanceRetrieve paymentsFetchDummy : Except JsError JsValue),
      (∃ b, stripeHealthCheck balanceRetrieve = Except.ok b) ∧
      (stripeHealthCheck balanceRetrieve = Except.ok true ↔
        ∃ v, balanceRetrieve = Except.ok v) ∧
      (∃ b, razorpayHealthCheck paymentsFetchDummy = Except.ok b) ∧
      (razorpayHealthCheck paymentsFetchDummy = Except.ok true ↔
        ((∃ v, paymentsFetchDummy = Except.ok v) ∨
          (∃ e, paymentsFetchDummy = Except.error e ∧ e.statusCode = some 404))) := by
  intro rb rr
  refine ⟨?_, ?_, ?_, ?_⟩
  · cases rb with
    | ok v => exact ⟨true, rfl⟩
    | error e => exact ⟨false, rfl⟩
  · cases rb with
    | ok v => simp [stripeHealthCheck]
    | error e => simp [stripeHealthCheck]
  · cases rr with
    | ok v => exact ⟨true, rfl⟩
    | error e => exact ⟨e.statusCode == some 404, rfl⟩
  · cases rr with
    | ok v => simp [razorpayHealthCheck]
    | error e => simp [razorpayHealthCheck]

/-- C10: Razorpay's `parseWebhook` never consults its signature and secret
parameters — for a fixed payload, parse oracle and configuration, any two
signature/secret pairs yield identical results. -/
theorem C10_parseWebhook_ignores_signature_and_secret :
    ∀ (jsonParse : String → Except JsError JsValue) (config : ProviderConfig)
      (payload s1 k1 s2 k2 : String),
      razorpayParseWebhook jsonParse config payload s1 k1 =
        razorpayParseWebhook jsonParse config payload s2 k2 :=
  fun _ _ _ _ _ _ _ => rfl

end Carnil
